/-
  Verification of the session-backed OAuth2 token lifecycle subsystem of
  the gas-demo repository (QuickBooks OAuth2 demo).

  The subsystem has four components: a CSRF State Store, a Session Store
  mapping opaque session ids to token records, an OAuth Flow Controller
  (login / callback / status / refresh / logout), and a pure Token
  Validity Checker.  The CSRF state-store implementation is embedded from
  the `active_states` snippet shipped in setup-nginx.sh; the Angular
  client pieces (authGuard, HomePage.logout, getExpiresIn) are embedded
  from gas-app/src/app.  The Python FastAPI controller itself is not part
  of the source tree, so its operations are modelled from the
  specification, each marked `Modelled from the spec:` in its doc
  comment.  Machine time is modelled as a natural-number timestamp.
-/
import Mathlib

namespace GasDemo

/-! ## Data model -/

/-- Token Record stored per session: access token, refresh token,
realm/company id, and the absolute expiry timestamp (`expires_at`).
Timestamps are natural numbers. -/
structure TokenRecord where
  access_token : String
  refresh_token : String
  realm_id : String
  expires_at : Nat
  deriving Repr, DecidableEq

/-- The in-memory Session Store: an association list from opaque session
ids to token records (the Python backend keeps a dict in memory). -/
def SessionStore := List (String × TokenRecord)

instance : DecidableEq SessionStore := by
  unfold SessionStore
  infer_instance

/-- Error taxonomy of the flow controller (spec section 7). -/
inductive AuthError where
  | CsrfMismatch
  | VendorDenied
  | TokenExchangeFailed
  | RefreshFailed
  | SessionNotFound
  | TokenExpired
  deriving Repr, DecidableEq

/-! ## State Store (CSRF states)

Embedded from the implementation snippet in setup-nginx.sh
(`active_states`): login stores `active_states[state] = True`; the
callback raises HTTP 400 when `state not in active_states` and otherwise
pops the entry, so a state is consumable exactly once.  The store is the
list of currently pending state strings (dict keys). -/

/-- `issue` records a freshly generated state as pending
(`active_states[state] = True`). -/
def issue (s : String) (st : List String) : List String := s :: st

/-- Remove every entry equal to `s` (the effect of `active_states.pop(state, None)`
on the dict's key set). -/
def removeState (s : String) : List String → List String
  | [] => []
  | x :: rest => if x = s then removeState s rest else x :: removeState s rest

/-- `consume` returns whether the state was pending and the store
afterwards: present states are removed (single use), absent states leave
the store unchanged and report `false` (the caller raises CsrfMismatch /
HTTP 400). -/
def consume (s : String) (st : List String) : Bool × List String :=
  if s ∈ st then (true, removeState s st) else (false, st)

/-- Operations a client can drive the State Store through. -/
inductive StateOp where
  | issue (s : String)
  | consume (s : String)
  deriving Repr, DecidableEq

/-- Apply one operation to the state store. -/
def applyStateOp (st : List String) (o : StateOp) : List String :=
  match o with
  | .issue s => issue s st
  | .consume s => (consume s st).2

/-- Run a sequence of operations on the state store. -/
def runStateOps (st : List String) (ops : List StateOp) : List String :=
  ops.foldl applyStateOp st

/-- Does the operation issue exactly the state `s`? -/
def issuesState (s : String) : StateOp → Bool
  | .issue s' => s' = s
  | .consume _ => false

theorem not_mem_removeState (s : String) (st : List String) :
    s ∉ removeState s st := by
  induction st with
  | nil => simp [removeState]
  | cons x rest ih =>
    by_cases hx : x = s
    · simpa [removeState, hx] using ih
    · simp only [removeState, if_neg hx, List.mem_cons]
      rintro (rfl | h)
      · exact hx rfl
      · exact ih h

theorem mem_removeState {x s : String} {st : List String}
    (h : x ∈ removeState s st) : x ∈ st := by
  induction st with
  | nil => simp [removeState] at h
  | cons y rest ih =>
    by_cases hy : y = s
    · simp only [removeState, if_pos hy] at h
      exact List.mem_cons_of_mem _ (ih h)
    · simp only [removeState, if_neg hy, List.mem_cons] at h
      rcases h with h | h
      · exact h ▸ List.mem_cons_self _ _
      · exact List.mem_cons_of_mem _ (ih h)

theorem consume_not_mem {s : String} {st : List String} (h : s ∉ st) :
    consume s st = (false, st) := by
  simp [consume, h]

theorem not_mem_consume_snd (s : String) (st : List String) :
    s ∉ (consume s st).2 := by
  by_cases h : s ∈ st
  · simpa [consume, h] using not_mem_removeState s st
  · simp only [consume, if_neg h]
    exact h

theorem not_mem_applyStateOp {s : String} {st : List String} {o : StateOp}
    (hst : s ∉ st) (ho : issuesState s o = false) : s ∉ applyStateOp st o := by
  cases o with
  | issue s' =>
    simp only [issuesState, decide_eq_false_iff_not] at ho
    simp only [applyStateOp, issue, List.mem_cons]
    rintro (rfl | h)
    · exact ho rfl
    · exact hst h
  | consume s' =>
    simp only [applyStateOp, consume]
    by_cases h : s' ∈ st
    · simp only [if_pos h]
      exact fun hm => hst (mem_removeState hm)
    · simpa [if_neg h] using hst

theorem not_mem_runStateOps {s : String} {st : List String} {ops : List StateOp}
    (hst : s ∉ st) (hops : ops.all (fun o => ! issuesState s o) = true) :
    s ∉ runStateOps st ops := by
  induction ops generalizing st with
  | nil => simpa [runStateOps] using hst
  | cons o rest ih =>
    simp only [List.all_cons, Bool.and_eq_true, Bool.not_eq_true'] at hops
    exact ih (not_mem_applyStateOp hst hops.1) (by simpa using hops.2)

/-! ## Token Validity Checker -/

/-- Modelled from the spec: the backend Token Validity Checker
(`quickbooks_auth.is_token_valid`, not part of the shipped tree) is the
pure function `is_valid(record, now) -> bool`, defined as
`now < record.expires_at`.  It is a plain function of the record and the
time, so it can have no side effects in this embedding. -/
def is_valid (r : TokenRecord) (now : Nat) : Bool := now < r.expires_at

/-! ## Session Store -/

/-- Look a session id up in the Session Store (dict read). -/
def sget (σ : SessionStore) (sid : String) : Option TokenRecord :=
  match σ with
  | [] => none
  | (k, v) :: rest => if k = sid then some v else sget rest sid

/-- Modelled from the spec: `update(session_id, new_access_token,
new_expiry)` rewrites the access-token/expiry pair of the matching entry
as one unit, leaving refresh token and realm id in place. -/
def supdate (σ : SessionStore) (sid tok : String) (exp : Nat) : SessionStore :=
  match σ with
  | [] => []
  | (k, v) :: rest =>
      if k = sid then
        (k, { v with access_token := tok, expires_at := exp }) :: supdate rest sid tok exp
      else
        (k, v) :: supdate rest sid tok exp

/-- Modelled from the spec: `delete(session_id)` removes the entry
unconditionally; deleting an absent id leaves the store as it was. -/
def sdelete (σ : SessionStore) (sid : String) : SessionStore :=
  match σ with
  | [] => []
  | (k, v) :: rest => if k = sid then sdelete rest sid else (k, v) :: sdelete rest sid

/-! ## OAuth Flow Controller -/

/-- The JSON report of `GET /auth/status`, mirroring the client-side
`AuthStatus` interface in gas-app/src/app/models/auth.model.ts
(`expires_at` as a timestamp instead of an ISO string). -/
structure StatusReport where
  authenticated : Bool
  token_valid : Bool
  realm_id : Option String
  expires_at : Option Nat
  deriving Repr, DecidableEq

/-- Modelled from the spec: `status(session_id)` looks the session up; if
absent it reports `{authenticated: false}`; if present it reports
`authenticated: true` together with the Checker's verdict, the realm id
and the expiry.  It mutates nothing. -/
def status (σ : SessionStore) (sid : String) (now : Nat) : StatusReport :=
  match sget σ sid with
  | none => ⟨false, false, none, none⟩
  | some r => ⟨true, is_valid r now, some r.realm_id, some r.expires_at⟩

/-- Modelled from the spec: the same status operation with its error
channel made explicit, to state that an absent session is reported, not
raised. -/
def statusE (σ : SessionStore) (sid : String) (now : Nat) :
    Except AuthError StatusReport :=
  match sget σ sid with
  | none => .ok ⟨false, false, none, none⟩
  | some r => .ok ⟨true, is_valid r now, some r.realm_id, some r.expires_at⟩

/-- Modelled from the spec: `refresh(session_id)`.  The vendor refresh
endpoint is an external collaborator, passed in as `vendor`: `none` is a
failed vendor call, `some (tok, exp)` a successful one carrying the new
access token and expiry.  On an absent session fail with
`SessionNotFound`; on vendor failure fail with `RefreshFailed` and keep
the store as it was; on success write the new pair atomically. -/
def refresh (σ : SessionStore) (sid : String) (vendor : Option (String × Nat)) :
    Except AuthError Unit × SessionStore :=
  match sget σ sid with
  | none => (.error .SessionNotFound, σ)
  | some _ =>
    match vendor with
    | none => (.error .RefreshFailed, σ)
    | some (tok, exp) => (.ok (), supdate σ sid tok exp)

/-- Modelled from the spec: `logout(session_id)` deletes the Session
Entry unconditionally; deleting an absent session is not an error. -/
def logout (σ : SessionStore) (sid : String) : Except AuthError Unit × SessionStore :=
  (.ok (), sdelete σ sid)

/-- What a successful callback sends back to the browser: an HTTP 302 to
the application root, the `qb_session` cookie (name, value, HttpOnly
flag), and the JSON body fields readable by client-side script. -/
structure CallbackResponse where
  redirectLocation : String
  cookieName : String
  cookieValue : String
  cookieHttpOnly : Bool
  bodyFields : List (String × String)
  deriving Repr, DecidableEq

/-- Modelled from the spec: `callback(code, state, realm_id, error?)`.
If `error` is present fail with `VendorDenied`.  Else consume the state
against the State Store (the `active_states` check of setup-nginx.sh);
on failure fail with `CsrfMismatch` (HTTP 400).  Exchange the code at
the vendor token endpoint (external collaborator `vendor`: `none` is a
failed exchange, `some (tok, rtok, exp)` a success); on failure fail
with `TokenExchangeFailed`.  On success store the record under the fresh
session id `freshSid`, set the HttpOnly session cookie and redirect to
the application root with an empty body.  Returns the outcome together
with both stores. -/
def callback (st : List String) (σ : SessionStore)
    (stateParam realmId : String) (err : Option String)
    (vendor : Option (String × String × Nat)) (freshSid : String) :
    Except AuthError CallbackResponse × List String × SessionStore :=
  match err with
  | some _ => (.error .VendorDenied, st, σ)
  | none =>
    match consume stateParam st with
    | (false, st') => (.error .CsrfMismatch, st', σ)
    | (true, st') =>
      match vendor with
      | none => (.error .TokenExchangeFailed, st', σ)
      | some (tok, rtok, exp) =>
        (.ok ⟨"/", "qb_session", freshSid, true, []⟩,
         st',
         (freshSid, ⟨tok, rtok, realmId, exp⟩) :: σ)

/-- HTTP status class of each controller failure (the callback's CSRF
failure is surfaced as HTTP 400, as documented in setup-nginx.sh). -/
def httpStatusOf : AuthError → Nat
  | .CsrfMismatch => 400
  | .VendorDenied => 400
  | .TokenExchangeFailed => 502
  | .RefreshFailed => 502
  | .SessionNotFound => 401
  | .TokenExpired => 401

/-- Modelled from the spec: the protected-request gate (`require_auth`
in the backend docs).  A protected request resolves the session cookie,
then checks the Checker's verdict; it proceeds only when the token is
still valid, otherwise it signals `SessionNotFound` or `TokenExpired`
(HTTP 401) instead of using the token. -/
def protectedRequest (σ : SessionStore) (sid : String) (now : Nat) :
    Except AuthError Unit :=
  match sget σ sid with
  | none => .error .SessionNotFound
  | some r => if is_valid r now then .ok () else .error .TokenExpired

/-! ## Angular client (gas-app/src/app) -/

/-- The route guard decision of gas-app/src/app/guards/auth.guard.ts:
the guard activates the protected route exactly when the backend status
report has `authenticated && token_valid`; otherwise it redirects the
browser to `/v1/auth/login`. -/
def guardAllows (st : StatusReport) : Bool :=
  st.authenticated && st.token_valid

/-- The countdown string computed by `getExpiresIn` in
gas-app/src/app/home/home.page.ts (and identically in
side-menu.component.ts): with `diff = expires_at - now` in milliseconds,
a negative `diff` renders "Expirado", otherwise "<m>m <s>s".  Times are
integer milliseconds. -/
def getExpiresIn (expires_at : Option Int) (now : Int) : String :=
  match expires_at with
  | none => "N/A"
  | some e =>
    let diff := e - now
    if diff < 0 then "Expirado"
    else
      let minutes := diff / 60000
      let seconds := diff % 60000 / 1000
      s!"{minutes}m {seconds}s"

/-- One observable browser-side effect of a client method: a JavaScript
cookie write (`document.cookie = ...`), a navigation
(`window.location.href = ...`, which issues a top-level GET), or an
XHR call issued through HttpClient. -/
inductive BrowserEffect where
  | jsSetCookie (header : String)
  | navigate (url : String)
  | httpGet (url : String)
  | httpPost (url : String)
  deriving Repr, DecidableEq

/-- The effects of `HomePage.logout` in the standalone
gas-app/src/app/home/home.page.ts: overwrite the `qb_session` cookie
with an already-expired value, then navigate to the login endpoint.
No HttpClient call is made. -/
def homePageLogoutEffects : List BrowserEffect :=
  [ .jsSetCookie "qb_session=; expires=Thu, 01 Jan 1970 00:00:00 UTC; path=/;",
    .navigate "/v1/auth/login" ]

/-- Does a browser effect reach the server-side logout endpoint? -/
def callsServerLogout : BrowserEffect → Bool
  | .httpPost url => url = "/v1/auth/logout"
  | _ => false

/-- Modelled from the spec: the effect of one browser-issued request on
the server's Session Store for the session `sid`.  Only `POST
/v1/auth/logout` deletes the Session Entry; `GET /v1/auth/login` only
touches the State Store, status reads are pure, and a JavaScript cookie
write never reaches the server at all. -/
def sessionStoreAfter (sid : String) (σ : SessionStore) : BrowserEffect → SessionStore
  | .httpPost url => if url = "/v1/auth/logout" then (logout σ sid).2 else σ
  | _ => σ

/-- Run a list of browser effects against the server Session Store. -/
def runBrowserEffects (sid : String) (σ : SessionStore)
    (effects : List BrowserEffect) : SessionStore :=
  effects.foldl (sessionStoreAfter sid) σ

/-! ## Session-store lemmas -/

theorem sget_sdelete_self (σ : SessionStore) (sid : String) :
    sget (sdelete σ sid) sid = none := by
  induction σ with
  | nil => rfl
  | cons p rest ih =>
    obtain ⟨k, v⟩ := p
    by_cases hk : k = sid
    · simpa [sdelete, hk] using ih
    · simpa [sdelete, sget, hk] using ih

theorem sdelete_sdelete (σ : SessionStore) (sid : String) :
    sdelete (sdelete σ sid) sid = sdelete σ sid := by
  induction σ with
  | nil => rfl
  | cons p rest ih =>
    obtain ⟨k, v⟩ := p
    by_cases hk : k = sid
    · simpa [sdelete, hk] using ih
    · simp [sdelete, hk, ih]

/-! ## Claim theorems -/

/-- C1: once a CSRF state has been consumed successfully, every later
`consume` of the same value returns false (so the caller sees
CsrfMismatch), whatever other operations ran in between, as long as the
State Store only ever issues fresh states (no later operation issues
that same value again). -/
theorem csrf_state_single_use (s : String) (st : List String) (ops : List StateOp)
    (_hfirst : (consume s st).1 = true)
    (hops : ops.all (fun o => ! issuesState s o) = true) :
    (consume s (runStateOps (consume s st).2 ops)).1 = false := by
  have h2 : s ∉ runStateOps (consume s st).2 ops :=
    not_mem_runStateOps (not_mem_consume_snd s st) hops
  rw [consume_not_mem h2]

/-- Concrete run of C1: state "a" pending next to "b"; its first consume
succeeds, and after issuing a fresh state "c" and consuming "b" a second
consume of "a" fails. -/
theorem csrf_state_single_use_witness :
    (consume "a" ["a", "b"]).1 = true ∧
    ([StateOp.issue "c", StateOp.consume "b"].all
        (fun o => ! issuesState "a" o) = true) ∧
    (consume "a" (runStateOps (consume "a" ["a", "b"]).2
        [StateOp.issue "c", StateOp.consume "b"])).1 = false :=
  ⟨by decide, by decide,
    csrf_state_single_use "a" ["a", "b"] [StateOp.issue "c", StateOp.consume "b"]
      (by decide) (by decide)⟩

/-- C2: for a session holding a token record, a failed refresh reports
RefreshFailed and leaves the Session Store — in particular that
session's stored access token and expiry — exactly as it was. -/
theorem refresh_failure_no_partial_write (σ : SessionStore) (sid : String)
    (r : TokenRecord) (h : sget σ sid = some r) :
    (refresh σ sid none).1 = .error .RefreshFailed ∧
    (refresh σ sid none).2 = σ ∧
    sget (refresh σ sid none).2 sid = some r := by
  refine ⟨?_, ?_, ?_⟩ <;> simp [refresh, h]

/-- Concrete run of C2 on a one-session store. -/
theorem refresh_failure_no_partial_write_witness :
    sget [("s1", TokenRecord.mk "at0" "rt0" "realm" 100)] "s1" =
      some (TokenRecord.mk "at0" "rt0" "realm" 100) ∧
    ((refresh [("s1", TokenRecord.mk "at0" "rt0" "realm" 100)] "s1" none).1 =
        .error .RefreshFailed ∧
      (refresh [("s1", TokenRecord.mk "at0" "rt0" "realm" 100)] "s1" none).2 =
        [("s1", TokenRecord.mk "at0" "rt0" "realm" 100)] ∧
      sget (refresh [("s1", TokenRecord.mk "at0" "rt0" "realm" 100)] "s1" none).2 "s1" =
        some (TokenRecord.mk "at0" "rt0" "realm" 100)) :=
  ⟨by decide,
    refresh_failure_no_partial_write _ "s1" (TokenRecord.mk "at0" "rt0" "realm" 100)
      (by decide)⟩

/-- C3: a callback whose state consumes successfully and whose token
exchange succeeds creates the Session Entry under the fresh session id,
sets the HttpOnly `qb_session` cookie, redirects to the application
root, and puts no token material in the script-readable response body. -/
theorem callback_success_creates_session (st : List String) (σ : SessionStore)
    (stateParam realmId tok rtok freshSid : String) (exp : Nat)
    (hconsume : (consume stateParam st).1 = true) :
    ∃ resp,
      (callback st σ stateParam realmId none (some (tok, rtok, exp)) freshSid).1 =
        .ok resp ∧
      resp.redirectLocation = "/" ∧
      resp.cookieName = "qb_session" ∧
      resp.cookieValue = freshSid ∧
      resp.cookieHttpOnly = true ∧
      resp.bodyFields = [] ∧
      sget (callback st σ stateParam realmId none (some (tok, rtok, exp)) freshSid).2.2
          freshSid = some (TokenRecord.mk tok rtok realmId exp) := by
  rcases hc : consume stateParam st with ⟨b, st'⟩
  have hb : b = true := by simpa [hc] using hconsume
  subst hb
  refine ⟨⟨"/", "qb_session", freshSid, true, []⟩, ?_, rfl, rfl, rfl, rfl, rfl, ?_⟩
  · simp [callback, hc]
  · simp [callback, hc, sget]

/-- Concrete run of C3: state "a" is pending, the exchange succeeds, and
the session entry appears under the fresh id "sid9". -/
theorem callback_success_creates_session_witness :
    (consume "a" ["a"]).1 = true ∧
    ∃ resp,
      (callback ["a"] [] "a" "realm" none (some ("tk", "rk", 99)) "sid9").1 =
        .ok resp ∧
      resp.redirectLocation = "/" ∧
      resp.cookieName = "qb_session" ∧
      resp.cookieValue = "sid9" ∧
      resp.cookieHttpOnly = true ∧
      resp.bodyFields = [] ∧
      sget (callback ["a"] [] "a" "realm" none (some ("tk", "rk", 99)) "sid9").2.2
          "sid9" = some (TokenRecord.mk "tk" "rk" "realm" 99) :=
  ⟨by decide,
    callback_success_creates_session ["a"] [] "a" "realm" "tk" "rk" "sid9" 99 (by decide)⟩

/-- C4: the Token Validity Checker returns true exactly when `now` is
strictly below `expires_at`; at `now = expires_at` the token is already
invalid.  The checker is a pure function of the record and the time, so
it has no side effects by construction. -/
theorem is_valid_strict_iff (r : TokenRecord) (now : Nat) :
    (is_valid r now = true ↔ now < r.expires_at) ∧
    is_valid r r.expires_at = false := by
  constructor
  · simp [is_valid]
  · simp [is_valid]

/-- C5: validity is monotone — a record valid at time `t` is valid at
every earlier time `t'`. -/
theorem is_valid_monotone (r : TokenRecord) (t t' : Nat)
    (h : is_valid r t = true) (h' : t' < t) : is_valid r t' = true := by
  simp only [is_valid, decide_eq_true_eq] at h ⊢
  omega

/-- Concrete run of C5: a record expiring at 10 is valid at 5, hence at 3. -/
theorem is_valid_monotone_witness :
    is_valid (TokenRecord.mk "a" "b" "c" 10) 5 = true ∧ 3 < 5 ∧
    is_valid (TokenRecord.mk "a" "b" "c" 10) 3 = true :=
  ⟨by decide, by decide,
    is_valid_monotone (TokenRecord.mk "a" "b" "c" 10) 5 3 (by decide) (by decide)⟩

/-- C6: for a session id absent from the Session Store, `status`
reports `authenticated: false`, and the operation never raises: its
explicit error channel always carries a report, never an error. -/
theorem status_absent_reports_false (σ : SessionStore) (sid : String) (now : Nat)
    (h : sget σ sid = none) :
    status σ sid now = ⟨false, false, none, none⟩ ∧
    statusE σ sid now = .ok (status σ sid now) := by
  constructor
  · simp [status, h]
  · cases hs : sget σ sid <;> simp [status, statusE, hs]

/-- Concrete run of C6 on the empty store. -/
theorem status_absent_reports_false_witness :
    sget [] "nosuch" = none ∧
    (status [] "nosuch" 7 = ⟨false, false, none, none⟩ ∧
      statusE [] "nosuch" 7 = .ok (status [] "nosuch" 7)) :=
  ⟨rfl, status_absent_reports_false [] "nosuch" 7 rfl⟩

/-- C7: a callback whose state fails to consume (absent or already
used) fails with CsrfMismatch, whose HTTP surface is a 400-class
status, and the Session Store is left unchanged — no Session Entry is
created. -/
theorem callback_csrf_mismatch_no_session (st : List String) (σ : SessionStore)
    (stateParam realmId freshSid : String) (vendor : Option (String × String × Nat))
    (hconsume : (consume stateParam st).1 = false) :
    (callback st σ stateParam realmId none vendor freshSid).1 =
      .error .CsrfMismatch ∧
    400 ≤ httpStatusOf .CsrfMismatch ∧ httpStatusOf .CsrfMismatch < 500 ∧
    (callback st σ stateParam realmId none vendor freshSid).2.2 = σ := by
  rcases hc : consume stateParam st with ⟨b, st'⟩
  have hb : b = false := by simpa [hc] using hconsume
  subst hb
  exact ⟨by simp [callback, hc], by decide, by decide, by simp [callback, hc]⟩

/-- Concrete run of C7: the state "bad" is not pending, the callback
fails with CsrfMismatch and the one-session store is untouched. -/
theorem callback_csrf_mismatch_no_session_witness :
    (consume "bad" ["good"]).1 = false ∧
    ((callback ["good"] [("s1", TokenRecord.mk "t" "r" "re" 5)] "bad" "re" none
        (some ("tk", "rk", 9)) "sid2").1 = .error .CsrfMismatch ∧
      400 ≤ httpStatusOf .CsrfMismatch ∧ httpStatusOf .CsrfMismatch < 500 ∧
      (callback ["good"] [("s1", TokenRecord.mk "t" "r" "re" 5)] "bad" "re" none
        (some ("tk", "rk", 9)) "sid2").2.2 = [("s1", TokenRecord.mk "t" "r" "re" 5)]) :=
  ⟨by decide,
    callback_csrf_mismatch_no_session ["good"] [("s1", TokenRecord.mk "t" "r" "re" 5)]
      "bad" "re" "sid2" (some ("tk", "rk", 9)) (by decide)⟩

/-- C8: `logout` is idempotent — it always succeeds, a second logout
with the same id succeeds and leaves the store exactly where the first
left it, and `status` after logout reports `authenticated: false`. -/
theorem logout_idempotent (σ : SessionStore) (sid : String) (now : Nat) :
    (logout σ sid).1 = .ok () ∧
    (logout (logout σ sid).2 sid).1 = .ok () ∧
    (logout (logout σ sid).2 sid).2 = (logout σ sid).2 ∧
    (status (logout σ sid).2 sid now).authenticated = false := by
  refine ⟨rfl, rfl, ?_, ?_⟩
  · simpa [logout] using sdelete_sdelete σ sid
  · simp [logout, status, sget_sdelete_self]

/-- C9: no protected request proceeds on an expired token: when the
stored record's `expires_at` is not in the future, the backend gate
signals TokenExpired instead of proceeding, and the client route guard
denies activation as well. -/
theorem expired_token_never_proceeds (σ : SessionStore) (sid : String) (now : Nat)
    (r : TokenRecord) (h : sget σ sid = some r) (hexp : r.expires_at ≤ now) :
    protectedRequest σ sid now = .error .TokenExpired ∧
    guardAllows (status σ sid now) = false := by
  have hv : is_valid r now = false := by
    simp only [is_valid, decide_eq_false_iff_not, not_lt]
    exact hexp
  constructor
  · simp [protectedRequest, h, hv]
  · simp [guardAllows, status, h, hv]

/-- Concrete run of C9: a record that expired at time 10 is rejected at
time 10 by both the backend gate and the route guard. -/
theorem expired_token_never_proceeds_witness :
    sget [("s1", TokenRecord.mk "t" "r" "re" 10)] "s1" =
      some (TokenRecord.mk "t" "r" "re" 10) ∧
    (TokenRecord.mk "t" "r" "re" 10).expires_at ≤ 10 ∧
    (protectedRequest [("s1", TokenRecord.mk "t" "r" "re" 10)] "s1" 10 =
        .error .TokenExpired ∧
      guardAllows (status [("s1", TokenRecord.mk "t" "r" "re" 10)] "s1" 10) = false) :=
  ⟨by decide, by decide,
    expired_token_never_proceeds _ "s1" 10 (TokenRecord.mk "t" "r" "re" 10)
      (by decide) (by decide)⟩

/-- C10: the standalone HomePage logout only writes an expired
`qb_session` cookie in the browser and navigates to the login endpoint;
it issues no call to the server logout endpoint, and running its
effects against the server leaves the Session Store unchanged. -/
theorem homepage_logout_leaves_server_sessions (σ : SessionStore) (sid : String) :
    homePageLogoutEffects =
      [ BrowserEffect.jsSetCookie
          "qb_session=; expires=Thu, 01 Jan 1970 00:00:00 UTC; path=/;",
        BrowserEffect.navigate "/v1/auth/login" ] ∧
    homePageLogoutEffects.all (fun e => ! callsServerLogout e) = true ∧
    runBrowserEffects sid σ homePageLogoutEffects = σ := by
  refine ⟨rfl, by decide, ?_⟩
  simp [runBrowserEffects, homePageLogoutEffects, sessionStoreAfter]

end GasDemo
